import Mathlib

/-!
Shallow embedding of `src/expense_predictor_model.py` (class `ExpensePredictor`)
of the expense-tracker-pro repository.

Conventions of the embedding:
* `pandas`/`numpy` numeric values are modelled as `ℚ`.
* A calendar date is modelled by the fields the code reads off it
  (`dt.month`, `dt.day`, `dt.weekday`); `quarter` is derived from the month
  exactly as pandas derives it.
* The sklearn `RandomForestRegressor` is an external library object; it is
  modelled as an abstract `Estimator` carrying its prediction function and its
  `feature_importances_` vector.  `train_test_split` and `model.fit` are
  abstracted into a `FitOracle` parameter of `train`; `fit` returning
  `Except.error` models the underlying fit raising an exception.
* `LabelEncoder` is modelled by its `classes_` list; `fit_transform` sets
  `classes_` to the sorted deduplicated category list (numpy `unique`) and
  `transform` maps a known class to its index in that list.
* Python's `(success, message)` results of `train` are modelled by the
  inductive `TrainStatus`, with one constructor per distinct message shape.
* `save_model`/`load_model` serialize through `joblib`; the persisted blob is
  modelled as the `ModelData` structure holding exactly the four entries the
  code puts in its dictionary.
-/

namespace ExpenseTrackerPro

/-- The fields of a calendar date that `create_features` reads
(`dt.month`, `dt.day`, `dt.weekday`). -/
structure Date where
  month : ℕ
  day : ℕ
  weekday : ℕ
deriving DecidableEq, Repr

/-- Pandas `dt.quarter`, derived from the month. -/
def quarterOf (m : ℕ) : ℕ := (m - 1) / 3 + 1

/-- The `transaction_type` string field: `'expense'` or `'income'`. -/
inductive Direction where
  | expense
  | income
deriving DecidableEq, Repr

/-- A raw input record in the paired
`{date, category, total_expense, total_income}` format accepted by
`prepare_data`. -/
structure RawRecord where
  date : Date
  category : String
  total_expense : ℚ
  total_income : ℚ
deriving DecidableEq, Repr

/-- A normalized `{date, category, amount, transaction_type}` row, as built by
the splitting branch of `prepare_data` (lines 65-88). -/
structure NormRecord where
  date : Date
  category : String
  amount : ℚ
  transaction_type : Direction
deriving DecidableEq, Repr

/-- The expense-side row `prepare_data` makes from a record with
`total_expense > 0` (`amount = total_expense`, type `'expense'`). -/
def expenseRow (r : RawRecord) : NormRecord :=
  ⟨r.date, r.category, r.total_expense, .expense⟩

/-- The income-side row `prepare_data` makes from a record with
`total_income > 0` (`amount = total_income`, type `'income'`). -/
def incomeRow (r : RawRecord) : NormRecord :=
  ⟨r.date, r.category, r.total_income, .income⟩

/-- Lines 65-88 of `prepare_data`: all expense rows (records with positive
`total_expense`) followed by all income rows (records with positive
`total_income`), exactly as the code concatenates `expense_data` then
`income_data`. -/
def normalizePaired (rs : List RawRecord) : List NormRecord :=
  (rs.filter (fun r => decide (0 < r.total_expense))).map expenseRow
    ++ (rs.filter (fun r => decide (0 < r.total_income))).map incomeRow

/-- The sklearn `LabelEncoder`, modelled by its `classes_` attribute
(empty list = never fitted). -/
structure LabelEncoder where
  classes : List String
deriving DecidableEq, Repr

/-- Lexicographic order on code-point lists (Python / numpy string order). -/
def lexLe : List ℕ → List ℕ → Bool
  | [], _ => true
  | _ :: _, [] => false
  | a :: as, b :: bs =>
    if a < b then true else if b < a then false else lexLe as bs

/-- String comparison by code points, as numpy sorts category names. -/
def strLe (a b : String) : Bool :=
  lexLe (a.data.map Char.toNat) (b.data.map Char.toNat)

/-- Insert a string into a sorted list. -/
def insertSorted (x : String) : List String → List String
  | [] => [x]
  | y :: ys => if strLe x y then x :: y :: ys else y :: insertSorted x ys

/-- Insertion sort by code-point order. -/
def sortStrings : List String → List String
  | [] => []
  | x :: xs => insertSorted x (sortStrings xs)

/-- Sorted deduplicated list of strings: what `LabelEncoder.fit` stores in
`classes_` (numpy `unique` of the input). -/
def sortedDedup (l : List String) : List String :=
  sortStrings l.dedup

/-- `LabelEncoder.transform` for a fitted encoder, extended with the code's
explicit unknown-category sentinel: the index of `c` in `classes` when
present, `-1` otherwise (lines 50-53). -/
def encodeWith (classes : List String) (c : String) : ℤ :=
  match classes.indexOf? c with
  | some i => (i : ℤ)
  | none => -1

/-- The fixed `self.feature_columns` list (lines 23-26). -/
def featureColumnNames : List String :=
  ["month", "weekday", "is_weekend", "quarter", "day_of_month",
   "is_month_start", "is_month_end", "category_encoded"]

/-- The dataframe columns that `create_features` adds (lines 37-53), as a
mapping from column name to value for one row with date `d` and category
code `code`.  Selecting `df[self.feature_columns]` is modelled as mapping
this function over the column-name list. -/
def featureMap (d : Date) (code : ℤ) : String → ℚ := fun name =>
  if name = "month" then (d.month : ℚ)
  else if name = "weekday" then (d.weekday : ℚ)
  else if name = "is_weekend" then (if d.weekday = 5 ∨ d.weekday = 6 then 1 else 0)
  else if name = "quarter" then (quarterOf d.month : ℚ)
  else if name = "day_of_month" then (d.day : ℚ)
  else if name = "is_month_start" then (if d.day ≤ 7 then 1 else 0)
  else if name = "is_month_end" then (if 24 ≤ d.day then 1 else 0)
  else if name = "category_encoded" then (code : ℚ)
  else 0

/-- The sklearn `RandomForestRegressor`, abstracted to what the code observes
of it: `predict` on one feature row, and `feature_importances_`. -/
structure Estimator where
  predictFn : List ℚ → ℚ
  featureImportances : List ℚ

/-- One row of the feature matrix after `create_features`: the date, the
category code, and the target amount. -/
structure FeatRow where
  date : Date
  code : ℤ
  amount : ℚ
deriving DecidableEq, Repr

/-- `create_features` (lines 29-55) restricted to what training uses: on an
unfitted predictor it fits the encoder on the distinct categories
(`fit_transform`); on a fitted one it reuses the existing vocabulary and maps
unknown categories to `-1`.  Returns the (possibly refitted) encoder and one
`FeatRow` per input row. -/
def create_features (enc : LabelEncoder) (fitted : Bool) (rs : List NormRecord) :
    LabelEncoder × List FeatRow :=
  if fitted then
    (enc, rs.map (fun r => ⟨r.date, encodeWith enc.classes r.category, r.amount⟩))
  else
    let enc' : LabelEncoder := ⟨sortedDedup (rs.map (·.category))⟩
    (enc', rs.map (fun r => ⟨r.date, encodeWith enc'.classes r.category, r.amount⟩))

/-- The feature-matrix row `df[self.feature_columns]` for one `FeatRow`. -/
def rowFeatures (cols : List String) (fr : FeatRow) : List ℚ :=
  cols.map (featureMap fr.date fr.code)

/-- `prepare_data` (lines 57-108) on the paired
`{date, category, total_expense, total_income}` format: split into per-side
rows, drop non-positive amounts, build features; `none` models the
`(None, None)` returns (empty input, no positive side, or nothing left after
the amount filter). -/
def prepare_data (enc : LabelEncoder) (fitted : Bool) (cols : List String)
    (rs : List RawRecord) :
    Option (LabelEncoder × List (List ℚ) × List ℚ) :=
  if rs = [] then none
  else
    let norm := normalizePaired rs
    if norm = [] then none
    else
      let norm2 := norm.filter (fun r => decide (0 < r.amount))
      if norm2 = [] then none
      else
        let p := create_features enc fitted norm2
        some (p.1, p.2.map (rowFeatures cols), norm2.map (·.amount))

/-- Number of usable rows a dataset leaves after preparation: normalized rows
surviving the positive-amount filter of `prepare_data`. -/
def usableRows (rs : List RawRecord) : ℕ :=
  ((normalizePaired rs).filter (fun r => decide (0 < r.amount))).length

/-- The `(success, message)` results of `train`, one constructor per distinct
message shape of lines 115, 118, 135 and 138. -/
inductive TrainStatus where
  | noValidData
  | insufficientData
  | trainingFailed (err : String)
  | success (mae r2 : ℚ)
deriving DecidableEq, Repr

/-- Whether a `TrainStatus` is the `True` branch of the Python result pair. -/
def TrainStatus.isSuccess : TrainStatus → Bool
  | .success _ _ => true
  | _ => false

/-- Abstraction of the sklearn calls inside `train`'s try block:
`train_test_split(X, y, test_size=0.2, random_state=42)` and
`self.model.fit(X_train, y_train)`.  `fit` returning `Except.error` models
the underlying fit raising. -/
structure FitOracle where
  split : List (List ℚ) → List ℚ →
    List (List ℚ) × List (List ℚ) × List ℚ × List ℚ
  fit : List (List ℚ) → List ℚ → Except String Estimator

/-- `mean_absolute_error(y_test, y_pred)`. -/
def meanAbsErr (yt yp : List ℚ) : ℚ :=
  ((yt.zip yp).map (fun ab => |ab.1 - ab.2|)).sum / (yt.length : ℚ)

/-- `r2_score(y_test, y_pred)`. -/
def r2Score (yt yp : List ℚ) : ℚ :=
  let ybar := yt.sum / (yt.length : ℚ)
  1 - ((yt.zip yp).map (fun ab => (ab.1 - ab.2) ^ 2)).sum
    / ((yt.map (fun a => (a - ybar) ^ 2)).sum)

/-- The `ExpensePredictor` object's state: its four attributes
(`model`, `category_encoder`, `feature_columns`, `is_fitted`). -/
structure ExpensePredictor where
  model : Estimator
  category_encoder : LabelEncoder
  feature_columns : List String
  is_fitted : Bool

/-- `ExpensePredictor.__init__` (lines 14-27): a fresh unfitted
`RandomForestRegressor` (never observably used before fitting, modelled by a
vacuous estimator), a fresh encoder, the fixed feature-column list, and
`is_fitted = False`. -/
def ExpensePredictor.init : ExpensePredictor :=
  { model := ⟨fun _ => 0, []⟩
    category_encoder := ⟨[]⟩
    feature_columns := featureColumnNames
    is_fitted := false }

/-- `train` (lines 110-138): prepare the data (mutating the encoder when the
predictor is unfitted), gate on fewer than 10 rows, split, fit, set
`is_fitted`, and compute the held-out metrics.  A fit fault is caught and
reported as `trainingFailed`, leaving the state as it was after
preparation. -/
def ExpensePredictor.train (p : ExpensePredictor) (o : FitOracle)
    (data : List RawRecord) : ExpensePredictor × TrainStatus :=
  match prepare_data p.category_encoder p.is_fitted p.feature_columns data with
  | none => (p, .noValidData)
  | some (enc', X, y) =>
    let p1 := { p with category_encoder := enc' }
    if X.length < 10 then (p1, .insufficientData)
    else
      let s := o.split X y
      match o.fit s.1 s.2.2.1 with
      | .error e => (p1, .trainingFailed e)
      | .ok est =>
        let p2 := { p1 with model := est, is_fitted := true }
        let ypred := s.2.1.map est.predictFn
        (p2, .success (meanAbsErr s.2.2.2 ypred) (r2Score s.2.2.2 ypred))

/-- `predict_category` (lines 140-176): `(0, 0)` when unfitted or the category
is unknown; otherwise build the feature row for `now` with the requested
category, override the `month` column with the target month (default the
current month), predict, clamp the amount at 0 and derive the confidence from
the mean feature importance clamped to `[50, 95]`.  The `transaction_type`
argument is placed in the dataframe but is not among the feature columns. -/
def ExpensePredictor.predict_category (p : ExpensePredictor) (now : Date)
    (category : String) (_transaction_type : Direction)
    (target_month : Option ℕ) : ℚ × ℚ :=
  if p.is_fitted = false then (0, 0)
  else
    let tm := target_month.getD now.month
    if category ∈ p.category_encoder.classes then
      let code := encodeWith p.category_encoder.classes category
      let base := featureMap now code
      let feat : String → ℚ := fun name =>
        if name = "month" then (tm : ℚ) else base name
      let xpred := p.feature_columns.map feat
      let prediction := p.model.predictFn xpred
      let imps := p.model.featureImportances
      let confidence := min 95 (max 50 (imps.sum / (imps.length : ℚ) * 100))
      (max 0 prediction, confidence)
    else (0, 0)

/-- One element of the list `predict_next_month` returns (lines 192-199). -/
structure Prediction where
  category : String
  predicted_expense : ℚ
  predicted_income : ℚ
  expense_confidence : ℚ
  income_confidence : ℚ
  transaction_type : Direction
deriving DecidableEq, Repr

/-- Line 183: `datetime.now().month + 1 if datetime.now().month < 12 else 1`. -/
def nextMonthOf (m : ℕ) : ℕ := if m < 12 then m + 1 else 1

/-- `predict_next_month` (lines 178-201): empty when unfitted; otherwise, for
each category, predict both directions for the wrapped next month, keep the
category when either predicted amount is positive, and tag the type
`'expense'` exactly when the expense prediction is strictly larger. -/
def ExpensePredictor.predict_next_month (p : ExpensePredictor) (now : Date)
    (categories : List String) : List Prediction :=
  if p.is_fitted = false then []
  else
    let nm := nextMonthOf now.month
    categories.filterMap (fun c =>
      let ep := p.predict_category now c .expense (some nm)
      let ip := p.predict_category now c .income (some nm)
      if 0 < ep.1 ∨ 0 < ip.1 then
        some ⟨c, ep.1, ip.1, ep.2, ip.2,
              if ip.1 < ep.1 then .expense else .income⟩
      else none)

/-- The dictionary `save_model` passes to `joblib.dump` (lines 213-218). -/
structure ModelData where
  model : Estimator
  category_encoder : LabelEncoder
  feature_columns : List String
  is_fitted : Bool

/-- `save_model` (lines 203-224): fails with the not-trained message when
unfitted, otherwise persists the four attributes as one blob. -/
def ExpensePredictor.save_model (p : ExpensePredictor) :
    Except String ModelData :=
  if p.is_fitted = false then .error "Model not trained yet"
  else .ok ⟨p.model, p.category_encoder, p.feature_columns, p.is_fitted⟩

/-- `load_model` (lines 226-242) on a successfully read blob: restore all four
attributes from it. -/
def ExpensePredictor.load_model (_p : ExpensePredictor) (d : ModelData) :
    ExpensePredictor :=
  { model := d.model
    category_encoder := d.category_encoder
    feature_columns := d.feature_columns
    is_fitted := d.is_fitted }

/-! Concrete sample instances used by witnesses and counterexamples. -/

/-- A sample fitted estimator: predicts the constant 7, with the uniform
importance vector a random forest over the 8 feature columns can produce. -/
def estSample : Estimator :=
  ⟨fun _ => 7, List.replicate 8 ((1 : ℚ) / 8)⟩

/-- A sample trained predictor with vocabulary `["Food", "Salary"]`. -/
def trainedSample : ExpensePredictor :=
  { model := estSample
    category_encoder := ⟨["Food", "Salary"]⟩
    feature_columns := featureColumnNames
    is_fitted := true }

/-- An oracle whose fit always succeeds (the normal sklearn behaviour on
valid numeric data). -/
def okOracle : FitOracle :=
  { split := fun X y => (X, X, y, y)
    fit := fun _ _ => .ok estSample }

/-- An oracle whose fit always raises (models an internal fitting fault). -/
def failOracle : FitOracle :=
  { split := fun X y => (X, X, y, y)
    fit := fun _ _ => .error "boom" }

/-- `n` paired records of one category, each with a positive expense total. -/
def rowsOf (cat : String) (n : ℕ) : List RawRecord :=
  (List.range n).map (fun i => ⟨⟨3, i % 28 + 1, i % 7⟩, cat, 100, 0⟩)

/-- The blob `trainedSample.save_model` produces. -/
def savedSample : ModelData :=
  ⟨estSample, ⟨["Food", "Salary"]⟩, featureColumnNames, true⟩

/-- C5: on a freshly constructed, never-trained predictor, `predict_category`
returns `(0, 0)` for every category, direction and target month,
`predict_next_month` returns the empty list for every category list, and
`save_model` fails with the not-trained error. -/
theorem C5_untrained_guards (now : Date) (category : String) (d : Direction)
    (tm : Option ℕ) (cats : List String) :
    ExpensePredictor.init.predict_category now category d tm = (0, 0) ∧
    ExpensePredictor.init.predict_next_month now cats = [] ∧
    ExpensePredictor.init.save_model = .error "Model not trained yet" :=
  ⟨rfl, rfl, rfl⟩

/-- C6: on any trained predictor, `predict_category` for a category outside
the current vocabulary returns `(0, 0)` for any direction and target month,
never a fault. -/
theorem C6_unknown_category (p : ExpensePredictor) (now : Date)
    (category : String) (d : Direction) (tm : Option ℕ)
    (hf : p.is_fitted = true)
    (hc : category ∉ p.category_encoder.classes) :
    p.predict_category now category d tm = (0, 0) := by
  unfold ExpensePredictor.predict_category
  rw [hf]
  simp [hc]

/-- Witness for C6: a concrete trained predictor and the literally-unseen
category of the spec's test. -/
theorem C6_unknown_category_witness :
    trainedSample.is_fitted = true ∧
    "NeverSeenCategory" ∉ trainedSample.category_encoder.classes ∧
    trainedSample.predict_category ⟨12, 15, 3⟩ "NeverSeenCategory" .expense none
      = (0, 0) :=
  ⟨rfl, by decide,
    C6_unknown_category trainedSample ⟨12, 15, 3⟩ "NeverSeenCategory" .expense
      none rfl (by decide)⟩

/-- C8: on any trained predictor, for any category in the vocabulary, any
direction and any target month, the predicted amount is non-negative and the
confidence lies in the closed interval `[50, 95]`. -/
theorem C8_confidence_bounds (p : ExpensePredictor) (now : Date)
    (category : String) (d : Direction) (tm : Option ℕ)
    (hf : p.is_fitted = true)
    (hc : category ∈ p.category_encoder.classes) :
    0 ≤ (p.predict_category now category d tm).1 ∧
    50 ≤ (p.predict_category now category d tm).2 ∧
    (p.predict_category now category d tm).2 ≤ 95 := by
  unfold ExpensePredictor.predict_category
  rw [hf]
  simp only [Bool.true_eq_false, if_false, if_pos hc]
  exact ⟨le_max_left 0 _, le_min (by norm_num) (le_max_left 50 _),
    min_le_left _ _⟩

/-- Witness for C8: the bounds at a concrete trained predictor and known
category. -/
theorem C8_confidence_bounds_witness :
    trainedSample.is_fitted = true ∧
    "Food" ∈ trainedSample.category_encoder.classes ∧
    (0 ≤ (trainedSample.predict_category ⟨12, 15, 3⟩ "Food" .expense none).1 ∧
     50 ≤ (trainedSample.predict_category ⟨12, 15, 3⟩ "Food" .expense none).2 ∧
     (trainedSample.predict_category ⟨12, 15, 3⟩ "Food" .expense none).2 ≤ 95) :=
  ⟨rfl, by decide,
    C8_confidence_bounds trainedSample ⟨12, 15, 3⟩ "Food" .expense none rfl
      (by decide)⟩

/-- C9: when the trained estimator's importance vector has the 8 entries of
the fixed feature-column list, is non-negative and sums to 1, its mean is
exactly 1/8 = 0.125, so the clamped confidence `min(95, max(50, mean * 100))`
returned by `predict_category` is the constant 50 for every known category,
direction and target month. -/
theorem C9_constant_confidence (p : ExpensePredictor) (now : Date)
    (category : String) (d : Direction) (tm : Option ℕ)
    (hf : p.is_fitted = true)
    (hc : category ∈ p.category_encoder.classes)
    (hlen : p.model.featureImportances.length = 8)
    (hpos : ∀ x ∈ p.model.featureImportances, 0 ≤ x)
    (hsum : p.model.featureImportances.sum = 1) :
    p.model.featureImportances.sum / (p.model.featureImportances.length : ℚ)
      = 1 / 8 ∧
    (p.predict_category now category d tm).2 = 50 := by
  constructor
  · rw [hsum, hlen]; norm_num
  · unfold ExpensePredictor.predict_category
    rw [hf]
    simp only [Bool.true_eq_false, if_false, if_pos hc]
    rw [hsum, hlen]
    norm_num

/-- Witness for C9: a concrete trained predictor whose importance vector is
uniform over the 8 features; its reported confidence is exactly 50. -/
theorem C9_constant_confidence_witness :
    trainedSample.is_fitted = true ∧
    "Food" ∈ trainedSample.category_encoder.classes ∧
    trainedSample.model.featureImportances.length = 8 ∧
    (∀ x ∈ trainedSample.model.featureImportances, 0 ≤ x) ∧
    trainedSample.model.featureImportances.sum = 1 ∧
    (trainedSample.model.featureImportances.sum
        / (trainedSample.model.featureImportances.length : ℚ) = 1 / 8 ∧
      (trainedSample.predict_category ⟨12, 15, 3⟩ "Food" .expense none).2 = 50) := by
  have hlen : trainedSample.model.featureImportances.length = 8 := by decide
  have hpos : ∀ x ∈ trainedSample.model.featureImportances, 0 ≤ x := by
    intro x hx
    rw [List.eq_of_mem_replicate hx]
    norm_num
  have hsum : trainedSample.model.featureImportances.sum = 1 := by
    show (List.replicate 8 ((1 : ℚ) / 8)).sum = 1
    rw [List.sum_replicate, nsmul_eq_mul]
    norm_num
  exact ⟨rfl, by decide, hlen, hpos, hsum,
    C9_constant_confidence trainedSample ⟨12, 15, 3⟩ "Food" .expense none rfl
      (by decide) hlen hpos hsum⟩

/-- C4: a successful `save_model` followed by `load_model` (into any
predictor) restores the saved predictor exactly — estimator, vocabulary,
feature-name ordering and fitted flag — so `predict_category` afterwards
returns bit-identical (amount, confidence) pairs for every category,
direction and target month. -/
theorem C4_round_trip (p q : ExpensePredictor) (d : ModelData)
    (h : p.save_model = .ok d) :
    q.load_model d = p ∧
    ∀ (now : Date) (category : String) (dir : Direction) (tm : Option ℕ),
      (q.load_model d).predict_category now category dir tm
        = p.predict_category now category dir tm := by
  obtain ⟨m, e, c, f⟩ := p
  unfold ExpensePredictor.save_model at h
  cases f with
  | false => simp at h
  | true =>
    simp only [Bool.true_eq_false, if_false, Except.ok.injEq] at h
    subst h
    exact ⟨rfl, fun _ _ _ _ => rfl⟩

/-- Witness for C4: the round trip at a concrete trained predictor, loading
into a fresh predictor, evaluated at a concrete prediction. -/
theorem C4_round_trip_witness :
    trainedSample.save_model = Except.ok savedSample ∧
    ExpensePredictor.init.load_model savedSample = trainedSample ∧
    (ExpensePredictor.init.load_model savedSample).predict_category
        ⟨12, 15, 3⟩ "Food" .expense none
      = trainedSample.predict_category ⟨12, 15, 3⟩ "Food" .expense none :=
  ⟨rfl,
    (C4_round_trip trainedSample ExpensePredictor.init savedSample rfl).1,
    (C4_round_trip trainedSample ExpensePredictor.init savedSample rfl).2
      ⟨12, 15, 3⟩ "Food" .expense none⟩

/-- C10: for a trained predictor, `predict_next_month` computes its target
month as the current month plus one with December wrapping to January (never
13), includes a category only if one of its two predicted amounts is
positive, both amounts are the `predict_category` results for that wrapped
target month, and the type tag is the direction whose predicted amount is
strictly larger. -/
theorem C10_next_month (p : ExpensePredictor) (now : Date)
    (categories : List String) (hf : p.is_fitted = true)
    (hm : 1 ≤ now.month ∧ now.month ≤ 12) :
    (nextMonthOf now.month ≠ 13 ∧ 1 ≤ nextMonthOf now.month ∧
      nextMonthOf now.month ≤ 12 ∧
      (now.month = 12 → nextMonthOf now.month = 1)) ∧
    ∀ pr ∈ p.predict_next_month now categories,
      pr.category ∈ categories ∧
      (0 < pr.predicted_expense ∨ 0 < pr.predicted_income) ∧
      pr.predicted_expense
        = (p.predict_category now pr.category .expense
            (some (nextMonthOf now.month))).1 ∧
      pr.predicted_income
        = (p.predict_category now pr.category .income
            (some (nextMonthOf now.month))).1 ∧
      (pr.predicted_income < pr.predicted_expense →
        pr.transaction_type = .expense) ∧
      (pr.predicted_expense < pr.predicted_income →
        pr.transaction_type = .income) := by
  constructor
  · unfold nextMonthOf
    split
    · omega
    · omega
  · intro pr hpr
    unfold ExpensePredictor.predict_next_month at hpr
    rw [hf] at hpr
    simp only [Bool.true_eq_false, if_false, List.mem_filterMap] at hpr
    obtain ⟨c, hc, hsome⟩ := hpr
    by_cases hpos :
        0 < (p.predict_category now c .expense
              (some (nextMonthOf now.month))).1 ∨
        0 < (p.predict_category now c .income
              (some (nextMonthOf now.month))).1
    · rw [if_pos hpos] at hsome
      obtain rfl := Option.some.inj hsome
      refine ⟨hc, hpos, rfl, rfl, ?_, ?_⟩
      · intro hlt
        simp only at hlt ⊢
        rw [if_pos hlt]
      · intro hlt
        simp only at hlt ⊢
        rw [if_neg (by exact fun h => absurd hlt (not_lt.mpr h.le))]
    · rw [if_neg hpos] at hsome
      exact absurd hsome (by simp)

/-- Evaluation lemma: the sample trained predictor predicts amount 7 with
confidence 50 for any known category, direction and target month. -/
theorem trainedSample_predict (now : Date) (c : String) (d : Direction)
    (tm : Option ℕ) (hc : c ∈ trainedSample.category_encoder.classes) :
    trainedSample.predict_category now c d tm = (7, 50) := by
  unfold ExpensePredictor.predict_category
  rw [if_neg (by simp [trainedSample]), if_pos hc]
  show (max 0 7,
    min 95 (max 50 ((List.replicate 8 ((1 : ℚ) / 8)).sum
      / ((List.replicate 8 ((1 : ℚ) / 8)).length : ℚ) * 100))) = (7, 50)
  rw [List.sum_replicate, nsmul_eq_mul, List.length_replicate]
  norm_num

/-- Evaluation lemma: `predict_next_month` of the sample trained predictor on
the single known category `"Food"`. -/
theorem trainedSample_next_month (now : Date) :
    trainedSample.predict_next_month now ["Food"]
      = [⟨"Food", 7, 7, 50, 50, .income⟩] := by
  unfold ExpensePredictor.predict_next_month
  rw [if_neg (by simp [trainedSample])]
  simp only [List.filterMap]
  rw [trainedSample_predict now "Food" .expense _ (by decide),
    trainedSample_predict now "Food" .income _ (by decide)]
  norm_num

/-- Witness for C10: the sample trained predictor in December; the returned
prediction for `"Food"` has a positive amount, and the target month wraps to
January. -/
theorem C10_next_month_witness :
    trainedSample.is_fitted = true ∧
    (⟨"Food", 7, 7, 50, 50, .income⟩ : Prediction)
      ∈ trainedSample.predict_next_month ⟨12, 15, 3⟩ ["Food"] ∧
    (0 < (⟨"Food", 7, 7, 50, 50, .income⟩ : Prediction).predicted_expense ∨
      0 < (⟨"Food", 7, 7, 50, 50, .income⟩ : Prediction).predicted_income) ∧
    nextMonthOf 12 = 1 := by
  have hmem : (⟨"Food", 7, 7, 50, 50, .income⟩ : Prediction)
      ∈ trainedSample.predict_next_month ⟨12, 15, 3⟩ ["Food"] := by
    rw [trainedSample_next_month]
    exact List.mem_singleton.mpr rfl
  have h := C10_next_month trainedSample ⟨12, 15, 3⟩ ["Food"] rfl (by decide)
  exact ⟨rfl, hmem, (h.2 _ hmem).2.1, h.1.2.2.2 rfl⟩

/-- The per-record splitting rule as the spec words it: the expense side of a
record is kept exactly when `total_expense` is positive and the income side
exactly when `total_income` is positive, so a record with both positive sides
becomes two normalized records. -/
def splitRecord (r : RawRecord) : List NormRecord :=
  (if 0 < r.total_expense then [expenseRow r] else [])
    ++ (if 0 < r.total_income then [incomeRow r] else [])

/-- The normalization stage of `prepare_data` produces, up to order, exactly
the per-record split rows. -/
theorem normalizePaired_perm (rs : List RawRecord) :
    (normalizePaired rs).Perm (rs.flatMap splitRecord) := by
  induction rs with
  | nil => simp [normalizePaired]
  | cons r rs ih =>
    unfold normalizePaired at ih ⊢
    rw [List.flatMap_cons, List.filter_cons, List.filter_cons]
    unfold splitRecord
    by_cases hte : 0 < r.total_expense <;> by_cases hti : 0 < r.total_income
    · simp only [hte, hti, decide_True, if_true, List.map_cons,
        List.cons_append, List.nil_append]
      refine List.Perm.cons _ ?_
      refine ((List.perm_middle).trans ?_)
      exact List.Perm.cons _ ih
    · simp only [hte, hti, decide_True, decide_False, if_true, if_false,
        List.map_cons, List.cons_append, List.nil_append]
      exact List.Perm.cons _ ih
    · simp only [hte, hti, decide_True, decide_False, if_true, if_false,
        List.map_cons, List.nil_append]
      refine ((List.perm_middle).trans ?_)
      exact List.Perm.cons _ ih
    · simp only [hte, hti, decide_False, if_false, List.nil_append]
      exact ih

/-- The spec's mixed record: salary row, income only. -/
def salaryRec : RawRecord := ⟨⟨3, 1, 4⟩, "Salary", 0, 50000⟩

/-- The spec's mixed record: food row, expense only. -/
def foodRec : RawRecord := ⟨⟨3, 2, 5⟩, "Food", 500, 0⟩

/-- C7: `prepare_data` splits every paired record into its positive sides
(one normalized row per positive direction, non-positive sides dropped), and
on the spec's two-record example it yields exactly two rows — the Salary
income row for 50000 and the Food expense row for 500 — whose amounts form
the target vector. -/
theorem C7_mixed_split :
    (∀ rs : List RawRecord,
      (normalizePaired rs).Perm (rs.flatMap splitRecord)) ∧
    (normalizePaired [salaryRec, foodRec]).length = 2 ∧
    (⟨⟨3, 1, 4⟩, "Salary", 50000, .income⟩ : NormRecord)
      ∈ normalizePaired [salaryRec, foodRec] ∧
    (⟨⟨3, 2, 5⟩, "Food", 500, .expense⟩ : NormRecord)
      ∈ normalizePaired [salaryRec, foodRec] ∧
    (prepare_data ⟨[]⟩ false featureColumnNames [salaryRec, foodRec]).map
        (fun t => t.2.2)
      = some [500, 50000] :=
  ⟨normalizePaired_perm, by decide, by decide, by decide, by decide⟩

/-- On a fitted predictor, `create_features` takes the transform branch:
the encoder is returned unchanged and categories are encoded against it. -/
theorem create_features_fitted (enc : LabelEncoder) (rs : List NormRecord) :
    create_features enc true rs
      = (enc, rs.map (fun r =>
          ⟨r.date, encodeWith enc.classes r.category, r.amount⟩)) := rfl

/-- On an already-fitted predictor, preparation reuses the existing encoder:
whatever `prepare_data` returns carries the input encoder unchanged. -/
theorem prepare_data_true_encoder (enc : LabelEncoder) (cols : List String)
    (rs : List RawRecord) (enc' : LabelEncoder) (X : List (List ℚ))
    (y : List ℚ) (h : prepare_data enc true cols rs = some (enc', X, y)) :
    enc' = enc := by
  unfold prepare_data at h
  simp only [create_features_fitted] at h
  split at h
  · exact absurd h (by simp)
  · split at h
    · exact absurd h (by simp)
    · split at h
      · exact absurd h (by simp)
      · simp only [Option.some.injEq, Prod.mk.injEq] at h
        exact h.1.symm

/-- `create_features` yields one feature row per input row. -/
theorem create_features_length (enc : LabelEncoder) (f : Bool)
    (rs : List NormRecord) :
    ((create_features enc f rs).2).length = rs.length := by
  unfold create_features
  split
  · simp
  · simp

/-- `prepare_data` returns the empty result exactly when no usable row
remains. -/
theorem prepare_data_none_iff (enc : LabelEncoder) (fitted : Bool)
    (cols : List String) (rs : List RawRecord) :
    prepare_data enc fitted cols rs = none ↔ usableRows rs = 0 := by
  simp only [prepare_data, usableRows]
  split_ifs with h1 h2 h3
  · simp [h1, normalizePaired]
  · simp [h2]
  · simp [h3]
  · simp [List.length_eq_zero, h3]

/-- The feature matrix `prepare_data` returns has exactly one row per usable
input row. -/
theorem prepare_data_some_length (enc : LabelEncoder) (fitted : Bool)
    (cols : List String) (rs : List RawRecord) (enc' : LabelEncoder)
    (X : List (List ℚ)) (y : List ℚ)
    (h : prepare_data enc fitted cols rs = some (enc', X, y)) :
    X.length = usableRows rs := by
  simp only [prepare_data] at h
  split at h
  · exact absurd h (by simp)
  · split at h
    · exact absurd h (by simp)
    · split at h
      · exact absurd h (by simp)
      · simp only [Option.some.injEq, Prod.mk.injEq] at h
        rw [← h.2.1, List.length_map, create_features_length]
        rfl

/-- Equation lemma for `train`: the empty-preparation branch. -/
theorem train_eq_none (p : ExpensePredictor) (o : FitOracle)
    (data : List RawRecord)
    (hp : prepare_data p.category_encoder p.is_fitted p.feature_columns data
      = none) :
    p.train o data = (p, .noValidData) := by
  unfold ExpensePredictor.train
  rw [hp]

/-- Equation lemma for `train`: the minimum-data gate branch. -/
theorem train_eq_insufficient (p : ExpensePredictor) (o : FitOracle)
    (data : List RawRecord) (enc' : LabelEncoder) (X : List (List ℚ))
    (y : List ℚ)
    (hp : prepare_data p.category_encoder p.is_fitted p.feature_columns data
      = some (enc', X, y))
    (hX : X.length < 10) :
    p.train o data
      = ({ p with category_encoder := enc' }, .insufficientData) := by
  unfold ExpensePredictor.train
  rw [hp]
  dsimp only
  rw [if_pos hX]

/-- Equation lemma for `train`: the caught-fault branch. -/
theorem train_eq_failed (p : ExpensePredictor) (o : FitOracle)
    (data : List RawRecord) (enc' : LabelEncoder) (X : List (List ℚ))
    (y : List ℚ) (e : String)
    (hp : prepare_data p.category_encoder p.is_fitted p.feature_columns data
      = some (enc', X, y))
    (hX : ¬ X.length < 10)
    (he : o.fit (o.split X y).1 (o.split X y).2.2.1 = .error e) :
    p.train o data
      = ({ p with category_encoder := enc' }, .trainingFailed e) := by
  unfold ExpensePredictor.train
  rw [hp]
  dsimp only
  rw [if_neg hX, he]

/-- Equation lemma for `train`: the successful-fit branch. -/
theorem train_eq_ok (p : ExpensePredictor) (o : FitOracle)
    (data : List RawRecord) (enc' : LabelEncoder) (X : List (List ℚ))
    (y : List ℚ) (est : Estimator)
    (hp : prepare_data p.category_encoder p.is_fitted p.feature_columns data
      = some (enc', X, y))
    (hX : ¬ X.length < 10)
    (he : o.fit (o.split X y).1 (o.split X y).2.2.1 = .ok est) :
    p.train o data
      = ({ p with model := est, category_encoder := enc', is_fitted := true },
        .success
          (meanAbsErr (o.split X y).2.2.2
            ((o.split X y).2.1.map est.predictFn))
          (r2Score (o.split X y).2.2.2
            ((o.split X y).2.1.map est.predictFn))) := by
  unfold ExpensePredictor.train
  rw [hp]
  dsimp only
  rw [if_neg hX, he]

/-- Once a predictor is fitted, no later `train` call ever changes its
category encoder (successful or not): retraining keeps the old vocabulary. -/
theorem train_fitted_encoder_unchanged (p : ExpensePredictor) (o : FitOracle)
    (data : List RawRecord) (hf : p.is_fitted = true) :
    ((p.train o data).1).category_encoder = p.category_encoder := by
  cases hp : prepare_data p.category_encoder p.is_fitted p.feature_columns data with
  | none => rw [train_eq_none p o data hp]
  | some t =>
    obtain ⟨enc', X, y⟩ := t
    have henc : enc' = p.category_encoder := by
      rw [hf] at hp
      exact prepare_data_true_encoder _ _ _ _ _ _ hp
    by_cases hX : X.length < 10
    · rw [train_eq_insufficient p o data enc' X y hp hX]
      exact henc
    · cases he : o.fit (o.split X y).1 (o.split X y).2.2.1 with
      | error e =>
        rw [train_eq_failed p o data enc' X y e hp hX he]
        exact henc
      | ok est =>
        rw [train_eq_ok p o data enc' X y est hp hX he]
        exact henc

/-- C1: evaluation at the failing input.  A predictor first trained on ten
`"CategoryA"` rows and then retrained on ten `"CategoryB"` rows reports
success for both calls, yet after the retrain its vocabulary is still
`["CategoryA"]`, while the distinct-category vocabulary of the new dataset is
`["CategoryB"]`: a successful retrain does not replace the category
vocabulary. -/
theorem C1_retrain_keeps_old_vocabulary :
    ((ExpensePredictor.init.train okOracle (rowsOf "CategoryA" 10)).2).isSuccess
        = true ∧
    (((ExpensePredictor.init.train okOracle (rowsOf "CategoryA" 10)).1.train
        okOracle (rowsOf "CategoryB" 10)).2).isSuccess = true ∧
    ((ExpensePredictor.init.train okOracle (rowsOf "CategoryA" 10)).1.train
        okOracle (rowsOf "CategoryB" 10)).1.category_encoder.classes
      = ["CategoryA"] ∧
    sortedDedup (((normalizePaired (rowsOf "CategoryB" 10)).filter
        (fun r => decide (0 < r.amount))).map (·.category))
      = ["CategoryB"] := by
  refine ⟨by decide, by decide, by decide, by decide⟩

/-- Counterexample for C2: on a never-trained predictor, a `train` call whose
fit faults does return a failure, but the category encoder is not what it was
before the call — preparation already refitted it from `[]` to
`["CategoryA"]` before the fault. -/
theorem C2_counterexample :
    (ExpensePredictor.init.train failOracle (rowsOf "CategoryA" 10)).2
        = .trainingFailed "boom" ∧
    ExpensePredictor.init.category_encoder.classes = [] ∧
    ((ExpensePredictor.init.train failOracle
        (rowsOf "CategoryA" 10)).1).category_encoder.classes
      = ["CategoryA"] := by
  refine ⟨by decide, by decide, by decide⟩

/-- C2 (amended): when the underlying fit faults, `train` returns a failure
and never sets the fitted flag or the estimator; if the predictor was
previously trained its whole state — fitted flag, vocabulary and estimator —
is exactly what it was before the call, so all predictions are unchanged.
(On a never-trained predictor the encoder may have been refitted by the
preparation step, which is invisible to `predict*`/`save_model` since the
fitted flag stays false.) -/
theorem C2_failed_fit_preserves_state (o : FitOracle) (p : ExpensePredictor)
    (data : List RawRecord)
    (hfail : ∀ X y, ∃ e, o.fit X y = Except.error e) :
    ((p.train o data).2).isSuccess = false ∧
    (p.train o data).1.model = p.model ∧
    (p.train o data).1.is_fitted = p.is_fitted ∧
    (p.is_fitted = true → (p.train o data).1 = p) ∧
    (p.is_fitted = true →
      ∀ (now : Date) (c : String) (d : Direction) (tm : Option ℕ),
        ((p.train o data).1).predict_category now c d tm
          = p.predict_category now c d tm) := by
  have key : ((p.train o data).2).isSuccess = false ∧
      (p.train o data).1.model = p.model ∧
      (p.train o data).1.is_fitted = p.is_fitted ∧
      (p.is_fitted = true → (p.train o data).1 = p) := by
    cases hp : prepare_data p.category_encoder p.is_fitted p.feature_columns data with
    | none =>
      rw [train_eq_none p o data hp]
      exact ⟨rfl, rfl, rfl, fun _ => rfl⟩
    | some t =>
      obtain ⟨enc', X, y⟩ := t
      have henc : p.is_fitted = true → enc' = p.category_encoder := by
        intro hf
        rw [hf] at hp
        exact prepare_data_true_encoder _ _ _ _ _ _ hp
      by_cases hX : X.length < 10
      · rw [train_eq_insufficient p o data enc' X y hp hX]
        exact ⟨rfl, rfl, rfl, fun hf => by rw [henc hf]⟩
      · obtain ⟨e, he⟩ := hfail (o.split X y).1 (o.split X y).2.2.1
        rw [train_eq_failed p o data enc' X y e hp hX he]
        exact ⟨rfl, rfl, rfl, fun hf => by rw [henc hf]⟩
  exact ⟨key.1, key.2.1, key.2.2.1, key.2.2.2,
    fun hf now c d tm => by rw [key.2.2.2 hf]⟩

/-- Witness for C2 (amended): a trained predictor retrained with a faulting
fit keeps its exact state and reports a failure. -/
theorem C2_failed_fit_preserves_state_witness :
    ((trainedSample.train failOracle (rowsOf "CategoryA" 10)).2).isSuccess
        = false ∧
    (trainedSample.train failOracle (rowsOf "CategoryA" 10)).1
      = trainedSample := by
  have h := C2_failed_fit_preserves_state failOracle trainedSample
    (rowsOf "CategoryA" 10) (fun _ _ => ⟨"boom", rfl⟩)
  exact ⟨h.1, h.2.2.2.1 rfl⟩

/-- The all-zero record of the C3 counterexample: both sides non-positive,
so it contributes no usable row. -/
def zeroRec : RawRecord := ⟨⟨3, 1, 4⟩, "Food", 0, 0⟩

/-- Counterexample for C3: a dataset whose preparation leaves 0 usable rows
(fewer than 10) makes `train` fail with the no-valid-data error, not the
insufficient-data error. -/
theorem C3_counterexample :
    usableRows [zeroRec] = 0 ∧
    (ExpensePredictor.init.train okOracle [zeroRec]).2
        = .noValidData ∧
    (ExpensePredictor.init.train okOracle [zeroRec]).2
        ≠ .insufficientData := by
  refine ⟨by decide, by decide, by decide⟩

/-- C3 (amended): the minimum-data gate, with the zero-row case split out.
Assuming the underlying fit does not fault: with 0 usable rows `train` fails
with the no-valid-data error; with 1 to 9 usable rows it fails with the
insufficient-data error; with exactly 10 usable rows it succeeds and fits the
predictor.  The threshold is the fixed constant 10. -/
theorem C3_minimum_data_gate (o : FitOracle) (p : ExpensePredictor)
    (rs : List RawRecord)
    (hfit : ∀ X y, ∃ est, o.fit X y = Except.ok est) :
    (usableRows rs = 0 → (p.train o rs).2 = .noValidData) ∧
    (1 ≤ usableRows rs → usableRows rs < 10 →
      (p.train o rs).2 = .insufficientData) ∧
    (usableRows rs = 10 →
      ((p.train o rs).2).isSuccess = true ∧
      (p.train o rs).1.is_fitted = true) := by
  cases hp : prepare_data p.category_encoder p.is_fitted p.feature_columns rs with
  | none =>
    have h0 : usableRows rs = 0 :=
      (prepare_data_none_iff _ _ _ _).mp hp
    rw [train_eq_none p o rs hp]
    exact ⟨fun _ => rfl, fun h1 _ => absurd h0 (by omega),
      fun h10 => absurd h0 (by omega)⟩
  | some t =>
    obtain ⟨enc', X, y⟩ := t
    have hlen : X.length = usableRows rs :=
      prepare_data_some_length _ _ _ _ _ _ _ hp
    have hne : usableRows rs ≠ 0 := by
      intro h0
      rw [(prepare_data_none_iff p.category_encoder p.is_fitted
        p.feature_columns rs).mpr h0] at hp
      exact Option.noConfusion hp
    refine ⟨fun h0 => absurd h0 hne, fun h1 h9 => ?_, fun h10 => ?_⟩
    · rw [train_eq_insufficient p o rs enc' X y hp (by omega)]
    · obtain ⟨est, hest⟩ := hfit (o.split X y).1 (o.split X y).2.2.1
      rw [train_eq_ok p o rs enc' X y est hp (by omega) hest]
      exact ⟨rfl, rfl⟩

/-- Witness for C3 (amended): ten usable single-category rows train a fresh
predictor successfully with a non-faulting fit. -/
theorem C3_minimum_data_gate_witness :
    usableRows (rowsOf "CategoryA" 10) = 10 ∧
    ((ExpensePredictor.init.train okOracle (rowsOf "CategoryA" 10)).2).isSuccess
        = true ∧
    (ExpensePredictor.init.train okOracle (rowsOf "CategoryA" 10)).1.is_fitted
        = true := by
  have h := C3_minimum_data_gate okOracle ExpensePredictor.init
    (rowsOf "CategoryA" 10) (fun _ _ => ⟨estSample, rfl⟩)
  exact ⟨by decide, (h.2.2 (by decide)).1, (h.2.2 (by decide)).2⟩

end ExpenseTrackerPro
